import Mathlib

/-!
Verification of the chunk-integrity scanner and the parallel validation
harness of the SpatialData.js repository.

The Python sources embedded here are
`src/python/spatialdata-integrity/src/spatialdata_integrity/checker.py`
(`check_zarr_array`, `check_spatialdata_element`, `check_spatialdata`) and
`src/python/scripts/validate_datasets.py` (`validate_with_version`, `main`).

Modelling conventions:
* A Python exception is a pair of its class name and its message (`PyErr`).
* External behaviour (a zarr store's metadata and region reads, a container
  load, a subprocess run) is a function or value of `Except PyErr _` supplied
  as a parameter; the code under `try`/`except` is translated so that every
  caught exception corresponds to an `Except.error` value consumed in place.
* `random.sample(pop, k)` is a parameter `rand : List (List Nat) → Nat →
  List (List Nat)`; `SampleOK` states the contract Python guarantees for it
  (correct length, no element picked twice, all elements from the population).
* The runtime capability dispatch of `check_spatialdata_element`
  (`hasattr` chains over `.values`/`.items`/`.chunks`/`.shape`) is modelled
  as a tagged union (`DataModel`) naming the branch of the source that ends
  up executing, each constructor carrying the external behaviour that branch
  consumes.
-/

/-- A Python exception: class name and message. -/
structure PyErr where
  ty : String
  msg : String
deriving Repr, DecidableEq

/-- `ChunkError.chunk_index` in the source is a tuple of ints for array
chunks, `(0,)*ndim`, `()`, or a 1-tuple holding a scale name (a string). -/
inductive ChunkIndex where
  | coords (c : List Nat)
  | scale (scale_name : String)
deriving Repr, DecidableEq

/-- `ChunkError` dataclass of `checker.py`. -/
structure ChunkError where
  chunk_index : ChunkIndex
  error_type : String
  error_message : String
  array_path : Option String
deriving Repr, DecidableEq

/-- `ElementResult` dataclass of `checker.py`. -/
structure ElementResult where
  element_type : String
  element_name : String
  is_valid : Bool
  chunks_checked : Nat
  errors : List ChunkError
  warning : Option String
deriving Repr, DecidableEq

/-- `IntegrityResult` dataclass of `checker.py` (the container result). -/
structure IntegrityResult where
  path : Option String
  is_valid : Bool
  elements : List ElementResult
  errors : List String
deriving Repr, DecidableEq

/-- Behaviour of a zarr array as consumed by `check_zarr_array`:
reading `.shape`/`.chunks` may raise;
`array[slices]` for a list of per-dimension `[start, stop)` ranges may raise.
`meta = .ok (shape, none)` is the `chunks is None` case. -/
structure ZarrArrayModel where
  meta : Except PyErr (List Nat × Option (List Nat))
  read : List (Nat × Nat) → Except PyErr Unit

/-- Lower-cased character list of a string (`error_message.lower()`). -/
def lowerChars (s : String) : List Char := s.data.map Char.toLower

/-- Python's `needle in msg.lower()` for a lower-case needle. -/
def containsSub (needle : String) (s : String) : Bool :=
  decide (needle.data <:+: lowerChars s)

/-- Error reclassification at `checker.py:183` and `checker.py:330`:
both `"blosc"` and `"decompression"` are matched. -/
def classifyBoth (ty m : String) : String :=
  if containsSub "blosc" m || containsSub "decompression" m then
    "BloscDecompressionError"
  else ty

/-- Error reclassification at `checker.py:365` (the direct array-access
fallback): only `"blosc"` is matched. -/
def classifyBloscOnly (ty m : String) : String :=
  if containsSub "blosc" m then "BloscDecompressionError" else ty

/-- `checker.py:137`: `num_chunks = (dim_size + chunk_size - 1) // chunk_size`. -/
def numChunks (dim_size chunk_size : Nat) : Nat :=
  (dim_size + chunk_size - 1) / chunk_size

/-- `checker.py:135-138`: per-dimension chunk index ranges
(`zip` truncates to the shorter of `shape` and `chunks`, as in Python). -/
def chunkIndexRanges (shape chunks : List Nat) : List (List Nat) :=
  (shape.zip chunks).map (fun p => List.range (numChunks p.1 p.2))

/-- `itertools.product`: Cartesian product, rightmost factor varying fastest. -/
def cartProd : List (List Nat) → List (List Nat)
  | [] => [[]]
  | xs :: rest => xs.flatMap (fun x => (cartProd rest).map (fun t => x :: t))

/-- `checker.py:143`: `all_chunk_coords = list(itertools.product(*chunk_indices))`. -/
def allChunkCoords (shape chunks : List Nat) : List (List Nat) :=
  cartProd (chunkIndexRanges shape chunks)

/-- `checker.py:169-173`: the `[start, stop)` ranges read for one chunk
(`end` clamped to the dimension size on the final partial chunk). -/
def chunkSlices (coord shape chunks : List Nat) : List (Nat × Nat) :=
  (coord.zip (shape.zip chunks)).map (fun p =>
    (p.1 * p.2.2, min (p.1 * p.2.2 + p.2.2) p.2.1))

/-- `checker.py:118-119`: the probe read for an unchunked array —
the first `min(10, s)` elements along every dimension. -/
def unchunkedProbeSlices (shape : List Nat) : List (Nat × Nat) :=
  shape.map (fun s => (0, min 10 s))

/-- `checker.py:145-163`: chunk selection. In sampling mode with more than
10 coordinates the selection is first, last, plus `random.sample` of
`min(8, n-2)` interior coordinates; afterwards `[:max_chunks_to_check]`
truncates when a limit is given. -/
def selectChunks (rand : List (List Nat) → Nat → List (List Nat))
    (sample_chunks : Bool) (max_chunks_to_check : Option Nat)
    (all_chunk_coords : List (List Nat)) : List (List Nat) :=
  let chunks_to_check :=
    if sample_chunks && decide (10 < all_chunk_coords.length) then
      [all_chunk_coords.headI, all_chunk_coords.getLastI] ++
        (if decide (2 < all_chunk_coords.length) then
          rand ((all_chunk_coords.drop 1).dropLast)
            (min 8 (all_chunk_coords.length - 2))
        else [])
    else all_chunk_coords
  match max_chunks_to_check with
  | none => chunks_to_check
  | some m => chunks_to_check.take m

/-- The `ChunkError` appended at `checker.py:186-193` for a failed chunk read. -/
def mkChunkErr (coord : List Nat) (e : PyErr) (array_path : Option String) :
    ChunkError :=
  { chunk_index := .coords coord
    error_type := classifyBoth e.ty e.msg
    error_message := e.msg
    array_path := array_path }

/-- `checker.py:166-194`: the per-chunk loop. Each attempted chunk counts
toward `chunks_checked` whether the read succeeds or fails; a failure is
recorded and the loop continues. -/
def readChunksFold (read : List (Nat × Nat) → Except PyErr Unit)
    (shape chunks : List Nat) (array_path : Option String)
    (to_check : List (List Nat)) : Nat × List ChunkError :=
  to_check.foldl
    (fun acc coord =>
      match read (chunkSlices coord shape chunks) with
      | .ok _ => (acc.1 + 1, acc.2)
      | .error e => (acc.1 + 1, acc.2 ++ [mkChunkErr coord e array_path]))
    (0, [])

/-- Assembly of the `ElementResult` at `checker.py:209-215`
(`is_valid` is `len(errors) == 0`). -/
def mkArrayResult (array_path : Option String) (checked : Nat)
    (errors : List ChunkError) : ElementResult :=
  { element_type := "array"
    element_name := array_path.getD "unknown"
    is_valid := errors.isEmpty
    chunks_checked := checked
    errors := errors
    warning := none }

/-- The result built when the outer `except` of `check_zarr_array`
fires (`checker.py:196-207`): one error with empty coordinate and no
attempt counted. -/
def metadataErrorResult (e : PyErr) (array_path : Option String) :
    ElementResult :=
  mkArrayResult array_path 0
    [{ chunk_index := .coords []
       error_type := e.ty
       error_message := e.msg
       array_path := array_path }]

/-- `checker.py:136-137` raises `ZeroDivisionError` (caught by the outer
`except`) when a chunk size paired with a dimension is zero. -/
def zeroChunkSize (shape chunks : List Nat) : Bool :=
  (shape.zip chunks).any (fun p => p.2 == 0)

/-- `check_zarr_array` of `checker.py:88-215`. -/
def check_zarr_array (rand : List (List Nat) → Nat → List (List Nat))
    (array : ZarrArrayModel) (sample_chunks : Bool)
    (max_chunks_to_check : Option Nat) (array_path : Option String) :
    ElementResult :=
  match array.meta with
  | .error e => metadataErrorResult e array_path
  | .ok (shape, none) =>
      match array.read (unchunkedProbeSlices shape) with
      | .ok _ => mkArrayResult array_path 1 []
      | .error e =>
          mkArrayResult array_path 1
            [{ chunk_index := .coords (List.replicate shape.length 0)
               error_type := e.ty
               error_message := e.msg
               array_path := array_path }]
  | .ok (shape, some chunks) =>
      if zeroChunkSize shape chunks then
        metadataErrorResult
          ⟨"ZeroDivisionError", "integer division or modulo by zero"⟩
          array_path
      else
        let r := readChunksFold array.read shape chunks array_path
          (selectChunks rand sample_chunks max_chunks_to_check
            (allChunkCoords shape chunks))
        mkArrayResult array_path r.1 r.2

/-- The contract Python documents for `random.sample(pop, k)` when
`k ≤ len(pop)`: `k` results, no position picked twice (so the result has no
duplicates when the population has none), all drawn from the population. -/
def SampleOK (rand : List (List Nat) → Nat → List (List Nat)) : Prop :=
  ∀ pop k, k ≤ pop.length →
    (rand pop k).length = k ∧
    (pop.Nodup → (rand pop k).Nodup) ∧
    ∀ x ∈ rand pop k, x ∈ pop

/-- A concrete sampler satisfying `SampleOK`, used to evaluate the
development on closed inputs. -/
def takeRand (pop : List (List Nat)) (k : Nat) : List (List Nat) :=
  pop.take k

theorem takeRand_sampleOK : SampleOK takeRand := by
  intro pop k hk
  refine ⟨?_, fun hn => (List.take_sublist k pop).nodup hn,
    fun x hx => List.mem_of_mem_take hx⟩
  simp [takeRand, Nat.min_eq_left hk]

/-- Behaviour of one scale level (`checker.py:277-340`): either the dask
store exposes an underlying zarr array with a chunk grid
(`checker.py:279-295`), or the scanner falls back to the minimal
materializing probe whose outcome is `res` (`checker.py:296-340`). -/
inductive ScaleItem where
  | withZarr (arr : ZarrArrayModel)
  | probeOnly (res : Except PyErr Unit)

/-- One entry of a multiscale pyramid's level list (`checker.py:270-275`):
an item from the resolved scale-level sequence, either a `(name, data)`
tuple or a bare data object (then named `scale_{i}`). -/
inductive ScaleEntry where
  | named (scale_name : String) (item : ScaleItem)
  | anon (item : ScaleItem)

/-- The resolved branch of the capability dispatch on `element.data` for
images/labels (`checker.py:243-375`):
`multiscale` — a scale-level sequence was obtained and is truthy;
`chunkedArr` — `data` has a `chunks` attribute (`checker.py:341-345`);
`plain` — the direct array-like fallback (`checker.py:346-375`), carrying
the `shape` attribute if any and the outcome of the sample read. -/
inductive DataModel where
  | multiscale (levels : List ScaleEntry)
  | chunkedArr (arr : ZarrArrayModel)
  | plain (shape : Option (List Nat)) (res : Except PyErr Unit)

/-- Behaviour of a SpatialData element as consumed by
`check_spatialdata_element`: accessing/introspecting `.data` may itself
raise (the outer `except` at `checker.py:444`), may be absent
(`checker.py:376-377`), or resolves to a `DataModel`; `probe` is the
outcome of the minimal probe used for points/shapes/tables
(`checker.py:379-442`). -/
structure ElementModel where
  data : Except PyErr (Option DataModel)
  probe : Except PyErr Unit

/-- Scale-level naming (`checker.py:271-275`). -/
def scaleName (i : Nat) : ScaleEntry → String
  | .named n _ => n
  | .anon _ => "scale_" ++ toString i

def scaleItem : ScaleEntry → ScaleItem
  | .named _ it => it
  | .anon it => it

/-- Checking one scale level of a multiscale pyramid
(`checker.py:270-340`): delegate to `check_zarr_array` when an underlying
zarr array with a chunk grid was obtained, otherwise do the minimal probe;
one probe counts as one checked unit and a probe failure is classified
against both `"blosc"` and `"decompression"`. -/
def checkScaleLevel (rand : List (List Nat) → Nat → List (List Nat))
    (element_name : String) (i : Nat) (entry : ScaleEntry) :
    Nat × List ChunkError :=
  let scale_name := scaleName i entry
  let path := element_name ++ "/" ++ scale_name
  match scaleItem entry with
  | .withZarr arr =>
      let r := check_zarr_array rand arr true none (some path)
      (r.chunks_checked, r.errors)
  | .probeOnly res =>
      match res with
      | .ok _ => (1, [])
      | .error e =>
          (1, [{ chunk_index := .scale scale_name
                 error_type := classifyBoth e.ty e.msg
                 error_message := e.msg
                 array_path := some path }])

/-- The images/labels body of `check_spatialdata_element`
(`checker.py:241-375`), returning (chunks checked, errors, warning). -/
def checkImageData (rand : List (List Nat) → Nat → List (List Nat))
    (element_name : String) : DataModel → Nat × List ChunkError × Option String
  | .multiscale levels =>
      let r := levels.enum.foldl
        (fun acc p =>
          (acc.1 + (checkScaleLevel rand element_name p.1 p.2).1,
           acc.2 ++ (checkScaleLevel rand element_name p.1 p.2).2))
        (0, [])
      (r.1, r.2, none)
  | .chunkedArr arr =>
      let r := check_zarr_array rand arr true none (some element_name)
      (r.chunks_checked, r.errors, none)
  | .plain shapeOpt res =>
      match shapeOpt with
      | some _ =>
          match res with
          | .ok _ => (1, [], none)
          | .error e =>
              (1,
               [{ chunk_index := .coords []
                  error_type := classifyBloscOnly e.ty e.msg
                  error_message := e.msg
                  array_path := some element_name }],
               none)
      | none =>
          (0, [],
           some "Could not determine array structure - no shape attribute")

/-- Assembly of the `ElementResult` at `checker.py:456-463`. -/
def mkElementResult (element_type element_name : String) (checked : Nat)
    (errors : List ChunkError) (warning : Option String) : ElementResult :=
  { element_type := element_type
    element_name := element_name
    is_valid := errors.isEmpty
    chunks_checked := checked
    errors := errors
    warning := warning }

def isImageLike (element_type : String) : Bool :=
  element_type == "images" || element_type == "labels"

def isProbeKind (element_type : String) : Bool :=
  element_type == "points" || element_type == "shapes" ||
    element_type == "tables"

/-- `check_spatialdata_element` of `checker.py:218-463`. An element type
outside the five known kinds falls through every branch and yields an
empty valid result, as in the source. -/
def check_spatialdata_element (rand : List (List Nat) → Nat → List (List Nat))
    (element : ElementModel) (element_type element_name : String) :
    ElementResult :=
  if isImageLike element_type then
    match element.data with
    | .error e =>
        mkElementResult element_type element_name 0
          [{ chunk_index := .coords []
             error_type := e.ty
             error_message := e.msg
             array_path := some element_name }] none
    | .ok none =>
        mkElementResult element_type element_name 0 []
          (some "Element has no 'data' attribute")
    | .ok (some d) =>
        let r := checkImageData rand element_name d
        mkElementResult element_type element_name r.1 r.2.1 r.2.2
  else if isProbeKind element_type then
    match element.probe with
    | .ok _ => mkElementResult element_type element_name 1 [] none
    | .error e =>
        mkElementResult element_type element_name 1
          [{ chunk_index := .coords []
             error_type := e.ty
             error_message := e.msg
             array_path := some element_name }] none
  else
    mkElementResult element_type element_name 0 [] none

/-- A loaded SpatialData container: for each element kind, the name→element
mapping when the attribute is present and non-`None`. -/
structure ContainerModel where
  images : Option (List (String × ElementModel))
  labels : Option (List (String × ElementModel))
  points : Option (List (String × ElementModel))
  shapes : Option (List (String × ElementModel))
  tables : Option (List (String × ElementModel))

def elementsOfKind (c : ContainerModel) : String →
    Option (List (String × ElementModel))
  | "images" => c.images
  | "labels" => c.labels
  | "points" => c.points
  | "shapes" => c.shapes
  | "tables" => c.tables
  | _ => none

/-- `checker.py:503-531`: iterate the requested kinds, skip missing or
`None` attributes, check every named element. `check_spatialdata_element`
catches all its exceptions itself, so the per-element `try` of
`checker.py:515-525` contributes no `all_errors` entries here. -/
def scanContainer (rand : List (List Nat) → Nat → List (List Nat))
    (c : ContainerModel) (element_types : List String) : List ElementResult :=
  element_types.foldl
    (fun acc ty =>
      match elementsOfKind c ty with
      | none => acc
      | some els =>
          acc ++ els.map (fun p => check_spatialdata_element rand p.2 ty p.1))
    []

/-- `check_spatialdata` of `checker.py:466-540`, called with a path: the
container is loaded from the location; a load failure short-circuits
(`checker.py:484-493`). -/
def check_spatialdata (rand : List (List Nat) → Nat → List (List Nat))
    (load : Except PyErr ContainerModel) (path : String)
    (element_types : Option (List String)) : IntegrityResult :=
  match load with
  | .error e =>
      { path := some path
        is_valid := false
        elements := []
        errors :=
          ["Failed to load SpatialData object: " ++ e.ty ++ ": " ++ e.msg] }
  | .ok c =>
      let tys := element_types.getD
        ["images", "labels", "points", "shapes", "tables"]
      let results := scanContainer rand c tys
      { path := some path
        is_valid := results.all (fun r => r.is_valid)
        elements := results
        errors := [] }

/-- One validation task of `validate_datasets.py`: a dataset (name, url)
paired with a library version. Task identity is (dataset name, version). -/
structure DatasetTask where
  name : String
  url : String
  version : String
deriving Repr, DecidableEq

/-- `ValidationResult` dataclass of `validate_datasets.py:21-35`. -/
structure ValidationResult where
  dataset_name : String
  dataset_url : String
  spatialdata_version : String
  success : Bool
  error_type : Option String
  error_message : Option String
  elements : Option (List (String × List String))
  coordinate_systems : Option (List String)
deriving Repr, DecidableEq

/-- The JSON payload printed by the subprocess probe script
(`validate_datasets.py:95-147`), as read back with `output.get(...)`
(a missing `success` key defaults to `False`, folded into `success`). -/
structure ParsedOutput where
  success : Bool
  error_type : Option String
  error_message : Option String
  elements : Option (List (String × List String))
  coordinate_systems : Option (List String)

/-- Behaviour of one `subprocess.run` invocation
(`validate_datasets.py:150-200`): it completes with some stdout/stderr
whose last line parses to a payload or does not parse (`parsed = none`),
it exceeds the 120 s timeout, or `subprocess.run` itself raises. -/
inductive RunOutcome where
  | completed (parsed : Option ParsedOutput) (stdout stderr : String)
  | timeout
  | exc (e : PyErr)

/-- `validate_with_version` of `validate_datasets.py:83-200`: every branch
— parsed payload, unparsable output, timeout, other exception — produces a
`ValidationResult` for the given task. -/
def validate_with_version (beh : DatasetTask → RunOutcome)
    (t : DatasetTask) : ValidationResult :=
  match beh t with
  | .completed (some p) _ _ =>
      { dataset_name := t.name
        dataset_url := t.url
        spatialdata_version := t.version
        success := p.success
        error_type := p.error_type
        error_message := p.error_message
        elements := p.elements
        coordinate_systems := p.coordinate_systems }
  | .completed none stdout stderr =>
      { dataset_name := t.name
        dataset_url := t.url
        spatialdata_version := t.version
        success := false
        error_type := some "ParseError"
        error_message :=
          some ("Could not parse output: " ++ stdout ++ "\nStderr: " ++ stderr)
        elements := none
        coordinate_systems := none }
  | .timeout =>
      { dataset_name := t.name
        dataset_url := t.url
        spatialdata_version := t.version
        success := false
        error_type := some "TimeoutError"
        error_message := some "Dataset loading timed out after 120 seconds"
        elements := none
        coordinate_systems := none }
  | .exc e =>
      { dataset_name := t.name
        dataset_url := t.url
        spatialdata_version := t.version
        success := false
        error_type := some e.ty
        error_message := some e.msg
        elements := none
        coordinate_systems := none }

/-- The result-collection loops of `main` (`validate_datasets.py:436-463`):
both the sequential loop and `pool.imap` yield exactly one result per
submitted task, in submission order, each computed from that task alone. -/
def runValidation (beh : DatasetTask → RunOutcome)
    (tasks : List DatasetTask) : List ValidationResult :=
  tasks.map (validate_with_version beh)

theorem cartProd_length (L : List (List Nat)) :
    (cartProd L).length = (L.map List.length).prod := by
  induction L with
  | nil => simp [cartProd]
  | cons xs rest ih =>
      simp [cartProd, List.length_flatMap, ih, Function.comp_def,
        List.map_const', List.sum_replicate, smul_eq_mul, Nat.mul_comm]

theorem mem_cartProd {L : List (List Nat)} {t : List Nat} :
    t ∈ cartProd L ↔ List.Forall₂ (fun x l => x ∈ l) t L := by
  induction L generalizing t with
  | nil => simp [cartProd, List.forall₂_nil_right_iff]
  | cons xs rest ih =>
      simp [cartProd, List.forall₂_cons_right_iff, ih, eq_comm]

theorem cartProd_ne_nil {L : List (List Nat)} (h : ∀ l ∈ L, l ≠ []) :
    cartProd L ≠ [] := by
  have hpos : 0 < (cartProd L).length := by
    rw [cartProd_length]
    apply List.prod_pos
    intro n hn
    simp only [List.mem_map] at hn
    obtain ⟨l, hl, rfl⟩ := hn
    exact List.length_pos.mpr (h l hl)
  exact List.ne_nil_of_length_pos hpos

theorem cartProd_nodup {L : List (List Nat)} (h : ∀ l ∈ L, l.Nodup) :
    (cartProd L).Nodup := by
  induction L with
  | nil => simp [cartProd]
  | cons xs rest ih =>
      rw [cartProd, List.nodup_flatMap]
      refine ⟨fun x _ => ?_, ?_⟩
      · exact (ih fun l hl => h l (List.mem_cons_of_mem _ hl)).map
          (fun a b hab => by injection hab)
      · have hxs : xs.Nodup := h xs (List.mem_cons_self _ _)
        refine hxs.imp ?_
        intro a b hab
        intro t ht1 ht2
        simp only [List.mem_map] at ht1 ht2
        obtain ⟨u, _, rfl⟩ := ht1
        obtain ⟨v, _, hv⟩ := ht2
        apply hab
        injection hv.symm with h1 h2

theorem cartProd_headI {L : List (List Nat)} (h : ∀ l ∈ L, l ≠ []) :
    (cartProd L).headI = L.map List.headI := by
  induction L with
  | nil => simp [cartProd]
  | cons xs rest ih =>
      have hxs := h xs (List.mem_cons_self _ _)
      obtain ⟨x, xs', rfl⟩ := List.exists_cons_of_ne_nil hxs
      have hr := cartProd_ne_nil (fun l hl => h l (List.mem_cons_of_mem _ hl))
      obtain ⟨c, cs', hc⟩ := List.exists_cons_of_ne_nil hr
      have ihr := ih (fun l hl => h l (List.mem_cons_of_mem _ hl))
      simp [cartProd, hc] at ihr ⊢
      simp [← ihr]

theorem cartProd_getLast? {L : List (List Nat)} (h : ∀ l ∈ L, l ≠ []) :
    (cartProd L).getLast? = some (L.map List.getLastI) := by
  induction L with
  | nil => simp [cartProd]
  | cons xs rest ih =>
      have hxs := h xs (List.mem_cons_self _ _)
      have hr := cartProd_ne_nil (fun l hl => h l (List.mem_cons_of_mem _ hl))
      have ihr := ih (fun l hl => h l (List.mem_cons_of_mem _ hl))
      conv_lhs => rw [cartProd, ← List.dropLast_append_getLast hxs]
      rw [List.flatMap_append]
      rw [List.getLast?_append_of_ne_nil]
      · simp only [List.flatMap_cons, List.flatMap_nil, List.append_nil]
        rw [List.getLast?_map, ihr]
        simp [List.getLastI_eq_getLast?, List.getLast?_eq_getLast _ hxs]
      · simp only [List.flatMap_cons, List.flatMap_nil, List.append_nil]
        intro hmap
        exact hr (List.map_eq_nil_iff.mp hmap)

theorem cartProd_getLastI {L : List (List Nat)} (h : ∀ l ∈ L, l ≠ []) :
    (cartProd L).getLastI = L.map List.getLastI := by
  rw [List.getLastI_eq_getLast?, cartProd_getLast? h]

theorem lex_of_forall₂_le {t u : List Nat} (h : List.Forall₂ (· ≤ ·) t u) :
    t = u ∨ List.Lex (· < ·) t u := by
  induction h with
  | nil => exact Or.inl rfl
  | @cons a b t' u' hab htl ih =>
      rcases Nat.lt_or_eq_of_le hab with hlt | heq
      · exact Or.inr (List.Lex.rel hlt)
      · subst heq
        rcases ih with rfl | hlex
        · exact Or.inl rfl
        · exact Or.inr (List.Lex.cons hlex)

theorem headI_mem {α : Type} [Inhabited α] {l : List α} (h : l ≠ []) :
    l.headI ∈ l := by
  match l, h with
  | a :: rest, _ => simp

theorem getLastI_mem {α : Type} [Inhabited α] {l : List α} (h : l ≠ []) :
    l.getLastI ∈ l := by
  rw [List.getLastI_eq_getLast?, List.getLast?_eq_getLast _ h]
  exact List.getLast_mem h

theorem headI_ne_getLastI {α : Type} [Inhabited α] {l : List α}
    (h2 : 2 ≤ l.length) (hn : l.Nodup) : l.headI ≠ l.getLastI := by
  match l, h2 with
  | a :: b :: rest, _ =>
      simp only [List.headI_cons]
      intro heq
      have hmem : (a :: b :: rest).getLastI ∈ b :: rest := by
        rw [List.getLastI_eq_getLast?, List.getLast?_eq_getLast _ (by simp)]
        rw [List.getLast_cons (by simp)]
        exact List.getLast_mem _
      rw [← heq] at hmem
      exact (List.nodup_cons.mp hn).1 hmem

theorem headI_not_mem_interior {α : Type} [Inhabited α] {l : List α}
    (hn : l.Nodup) (h : l ≠ []) : l.headI ∉ (l.drop 1).dropLast := by
  match l, h with
  | a :: rest, _ =>
      simp only [List.headI_cons, List.drop_one, List.tail_cons]
      intro hmem
      exact (List.nodup_cons.mp hn).1 (List.dropLast_subset _ hmem)

theorem getLastI_not_mem_interior {α : Type} [Inhabited α] {l : List α}
    (hn : l.Nodup) (h2 : 2 ≤ l.length) :
    l.getLastI ∉ (l.drop 1).dropLast := by
  match l, h2 with
  | a :: rest, h2' =>
      have hrne : rest ≠ [] := by
        refine List.ne_nil_of_length_pos ?_
        have h3 : 2 ≤ rest.length + 1 := by simpa using h2'
        omega
      simp only [List.drop_one, List.tail_cons]
      have hgl : (a :: rest).getLastI = rest.getLast hrne := by
        rw [List.getLastI_eq_getLast?,
          List.getLast?_eq_getLast _ (by simp [hrne]), List.getLast_cons hrne]
      rw [hgl]
      intro hmem
      have hrnodup : rest.Nodup := (List.nodup_cons.mp hn).2
      have heq := List.dropLast_append_getLast hrne
      rw [← heq] at hrnodup
      have hdisj := List.disjoint_of_nodup_append hrnodup
      exact hdisj hmem (by simp)

/-- The optional `ChunkError` one selected chunk contributes: `none` when
the clamped-slice read succeeds, the classified error when it fails. -/
def chunkErrOf (read : List (Nat × Nat) → Except PyErr Unit)
    (shape chunks : List Nat) (path : Option String) (coord : List Nat) :
    Option ChunkError :=
  match read (chunkSlices coord shape chunks) with
  | .ok _ => none
  | .error e => some (mkChunkErr coord e path)

theorem readChunksFold_eq (read : List (Nat × Nat) → Except PyErr Unit)
    (shape chunks : List Nat) (path : Option String)
    (l : List (List Nat)) :
    readChunksFold read shape chunks path l =
      (l.length, l.filterMap (chunkErrOf read shape chunks path)) := by
  have aux : ∀ (l : List (List Nat)) (n : Nat) (es : List ChunkError),
      l.foldl
        (fun acc coord =>
          match read (chunkSlices coord shape chunks) with
          | .ok _ => (acc.1 + 1, acc.2)
          | .error e => (acc.1 + 1, acc.2 ++ [mkChunkErr coord e path]))
        (n, es) =
      (n + l.length, es ++ l.filterMap (chunkErrOf read shape chunks path)) := by
    intro l
    induction l with
    | nil => intro n es; simp
    | cons c rest ih =>
        intro n es
        simp only [List.foldl_cons, List.filterMap_cons]
        cases hg : read (chunkSlices c shape chunks) with
        | ok u =>
            simp [chunkErrOf, hg, ih, Nat.add_assoc, Nat.add_comm 1]
        | error e =>
            simp [chunkErrOf, hg, ih, Nat.add_assoc, Nat.add_comm 1]
  simpa using aux l 0 []

/-- Reading `.shape`/`.chunks` succeeds and, when a chunk grid is present,
no chunk size paired with a dimension is zero: exactly the condition under
which the outer `except` of `check_zarr_array` cannot fire. -/
def metaOKb (a : ZarrArrayModel) : Bool :=
  match a.meta with
  | .error _ => false
  | .ok (_, none) => true
  | .ok (s, some c) => (s.zip c).all (fun p => p.2 != 0)

theorem zeroChunkSize_eq_false {s c : List Nat}
    (h : (s.zip c).all (fun p => p.2 != 0) = true) :
    zeroChunkSize s c = false := by
  rw [zeroChunkSize]
  rw [List.any_eq_false]
  intro p hp
  have := List.all_eq_true.mp h p hp
  simpa using this

/-- The chunked path of `check_zarr_array`, characterised: every selected
coordinate is attempted exactly once (the count is the full selection
length) and the error list is exactly the classified failures of the
selected coordinates, in selection order. -/
theorem check_zarr_array_chunked
    (rand : List (List Nat) → Nat → List (List Nat)) (a : ZarrArrayModel)
    (sc : Bool) (mx : Option Nat) (p : Option String) (s c : List Nat)
    (hm : a.meta = .ok (s, some c)) (hz : zeroChunkSize s c = false) :
    check_zarr_array rand a sc mx p =
      mkArrayResult p (selectChunks rand sc mx (allChunkCoords s c)).length
        ((selectChunks rand sc mx (allChunkCoords s c)).filterMap
          (chunkErrOf a.read s c p)) := by
  unfold check_zarr_array
  rw [hm]
  simp [hz, readChunksFold_eq]

theorem check_zarr_array_errors_le
    (rand : List (List Nat) → Nat → List (List Nat)) (a : ZarrArrayModel)
    (sc : Bool) (mx : Option Nat) (p : Option String)
    (h : metaOKb a = true) :
    (check_zarr_array rand a sc mx p).errors.length ≤
      (check_zarr_array rand a sc mx p).chunks_checked := by
  cases hm : a.meta with
  | error e => rw [metaOKb, hm] at h; exact absurd h (by simp)
  | ok sc' =>
      obtain ⟨s, copt⟩ := sc'
      cases copt with
      | none =>
          unfold check_zarr_array
          rw [hm]
          cases hr : a.read (unchunkedProbeSlices s) <;>
            simp [hr, mkArrayResult]
      | some c =>
          rw [metaOKb, hm] at h
          rw [check_zarr_array_chunked rand a sc mx p s c hm
            (zeroChunkSize_eq_false h)]
          simpa [mkArrayResult] using
            List.length_filterMap_le (chunkErrOf a.read s c p)
              (selectChunks rand sc mx (allChunkCoords s c))

theorem foldl_pairs_eq {β : Type} (g : β → Nat × List ChunkError)
    (L : List β) :
    ∀ acc : Nat × List ChunkError,
      L.foldl (fun acc b => (acc.1 + (g b).1, acc.2 ++ (g b).2)) acc =
        (acc.1 + (L.map (fun b => (g b).1)).sum,
         acc.2 ++ (L.map (fun b => (g b).2)).flatten) := by
  induction L with
  | nil => intro acc; simp
  | cons b rest ih =>
      intro acc
      simp [ih, Nat.add_assoc]

/-- Per scale level, the condition keeping the nested `check_zarr_array`
(if any) out of its metadata-failure path. -/
def scaleOKb (e : ScaleEntry) : Bool :=
  match scaleItem e with
  | .withZarr a => metaOKb a
  | .probeOnly _ => true

def dataOKb : DataModel → Bool
  | .multiscale levels => levels.all scaleOKb
  | .chunkedArr a => metaOKb a
  | .plain _ _ => true

/-- Introspecting `.data` does not raise, and every nested zarr array's
metadata access succeeds. -/
def elementOKb (el : ElementModel) : Bool :=
  match el.data with
  | .error _ => false
  | .ok none => true
  | .ok (some d) => dataOKb d

theorem checkScaleLevel_errors_le
    (rand : List (List Nat) → Nat → List (List Nat)) (name : String)
    (i : Nat) (entry : ScaleEntry) (h : scaleOKb entry = true) :
    (checkScaleLevel rand name i entry).2.length ≤
      (checkScaleLevel rand name i entry).1 := by
  rw [scaleOKb] at h
  cases hsi : scaleItem entry with
  | withZarr a =>
      rw [hsi] at h
      have := check_zarr_array_errors_le rand a true none
        (some (name ++ "/" ++ scaleName i entry)) h
      simpa [checkScaleLevel, hsi] using this
  | probeOnly res =>
      cases res <;> simp [checkScaleLevel, hsi]

theorem checkImageData_errors_le
    (rand : List (List Nat) → Nat → List (List Nat)) (name : String)
    (d : DataModel) (h : dataOKb d = true) :
    (checkImageData rand name d).2.1.length ≤ (checkImageData rand name d).1 := by
  cases d with
  | multiscale levels =>
      rw [dataOKb] at h
      rw [checkImageData]
      rw [foldl_pairs_eq
        (fun p : Nat × ScaleEntry => checkScaleLevel rand name p.1 p.2)]
      simp only [Nat.zero_add, List.nil_append, List.length_flatten,
        List.map_map]
      apply List.sum_le_sum
      intro p hp
      have hmem : p.2 ∈ levels := by
        have := List.enum_map_snd levels
        rw [← this]
        exact List.mem_map_of_mem _ hp
      exact checkScaleLevel_errors_le rand name p.1 p.2
        (List.all_eq_true.mp h p.2 hmem)
  | chunkedArr a =>
      rw [dataOKb] at h
      have := check_zarr_array_errors_le rand a true none (some name) h
      simpa [checkImageData] using this
  | plain shapeOpt res =>
      cases shapeOpt with
      | none => simp [checkImageData]
      | some s => cases res <;> simp [checkImageData]

theorem check_spatialdata_element_errors_le
    (rand : List (List Nat) → Nat → List (List Nat)) (el : ElementModel)
    (ty name : String) (h : elementOKb el = true) :
    (check_spatialdata_element rand el ty name).errors.length ≤
      (check_spatialdata_element rand el ty name).chunks_checked := by
  rw [check_spatialdata_element]
  by_cases himg : isImageLike ty = true
  · simp only [himg, if_true]
    rw [elementOKb] at h
    cases hd : el.data with
    | error e => rw [hd] at h; exact absurd h (by simp)
    | ok dopt =>
        cases dopt with
        | none => simp [mkElementResult]
        | some d =>
            rw [hd] at h
            have := checkImageData_errors_le rand name d h
            simpa [mkElementResult] using this
  · simp only [himg]
    by_cases hpr : isProbeKind ty = true
    · simp only [hpr, if_true]
      cases el.probe <;> simp [mkElementResult]
    · simp [hpr, mkElementResult]

/-- A store whose metadata read (`array.shape` / `array.chunks`) raises. -/
def badMetaArray : ZarrArrayModel :=
  { meta := .error ⟨"OSError", "cannot read metadata"⟩
    read := fun _ => .ok () }

/-- A small healthy chunked store. -/
def okArray : ZarrArrayModel :=
  { meta := .ok ([4], some [2])
    read := fun _ => .ok () }

/-- A healthy probe-only element with single-array data. -/
def okElement : ElementModel :=
  { data := .ok (some (.chunkedArr okArray))
    probe := .ok () }

/-- C1, counterexample: when reading the array's metadata fails,
`check_zarr_array` records one error (`checker.py:196-207`) without
counting any attempt, so `chunks_checked = 0 < 1 = len(errors)` and the
claimed invariant `chunks_checked ≥ len(errors)` fails. -/
theorem c1_counterexample :
    (check_zarr_array takeRand badMetaArray true none none).chunks_checked
        = 0 ∧
    (check_zarr_array takeRand badMetaArray true none none).errors.length
        = 1 ∧
    ¬((check_zarr_array takeRand badMetaArray true none
        none).errors.length ≤
      (check_zarr_array takeRand badMetaArray true none
        none).chunks_checked) := by
  decide

/-- C1 (amended): `chunks_checked ≥ len(errors)` holds for every
`ElementResult` of `check_zarr_array` and of `check_spatialdata_element`
provided the metadata/introspection accesses succeed (`metaOKb` /
`elementOKb`): shape and chunk grid are readable, chunk sizes are nonzero,
and the element's `data` attribute access does not raise. Each error then
corresponds to an attempted-and-counted read. -/
theorem c1_chunks_checked_ge_errors :
    (∀ (rand : List (List Nat) → Nat → List (List Nat))
        (a : ZarrArrayModel) (sc : Bool) (mx : Option Nat)
        (p : Option String), metaOKb a = true →
      (check_zarr_array rand a sc mx p).errors.length ≤
        (check_zarr_array rand a sc mx p).chunks_checked) ∧
    (∀ (rand : List (List Nat) → Nat → List (List Nat))
        (el : ElementModel) (ty name : String), elementOKb el = true →
      (check_spatialdata_element rand el ty name).errors.length ≤
        (check_spatialdata_element rand el ty name).chunks_checked) :=
  ⟨check_zarr_array_errors_le, check_spatialdata_element_errors_le⟩

/-- Witness for C1 (amended) at a concrete healthy store and element. -/
theorem c1_chunks_checked_ge_errors_witness :
    (metaOKb okArray = true ∧
      (check_zarr_array takeRand okArray true none none).errors.length ≤
        (check_zarr_array takeRand okArray true none none).chunks_checked) ∧
    (elementOKb okElement = true ∧
      (check_spatialdata_element takeRand okElement "images"
        "img").errors.length ≤
      (check_spatialdata_element takeRand okElement "images"
        "img").chunks_checked) :=
  ⟨⟨by decide,
    c1_chunks_checked_ge_errors.1 takeRand okArray true none none
      (by decide)⟩,
   ⟨by decide,
    c1_chunks_checked_ge_errors.2 takeRand okElement "images" "img"
      (by decide)⟩⟩

/-- C3: the number of enumerated chunk coordinates is the product over the
zipped dimensions of the ceiling division `ceil(shape[i] / chunks[i])`
(`⌈/⌉` on `Nat` is `(s + c - 1) / c`, the expression at `checker.py:137`),
and the enumerated coordinates are exactly the Cartesian product of the
per-dimension ranges. -/
theorem c3_enumeration_count (shape chunks : List Nat)
    (hlen : shape.length = chunks.length)
    (hpos : ∀ c ∈ chunks, 0 < c) :
    (allChunkCoords shape chunks).length =
      ((shape.zip chunks).map (fun p => p.1 ⌈/⌉ p.2)).prod ∧
    ∀ t, t ∈ allChunkCoords shape chunks ↔
      List.Forall₂ (fun x (p : Nat × Nat) => x < p.1 ⌈/⌉ p.2) t
        (shape.zip chunks) := by
  constructor
  · rw [allChunkCoords, cartProd_length, chunkIndexRanges]
    simp [List.map_map, Function.comp_def, numChunks,
      Nat.ceilDiv_eq_add_pred_div]
  · intro t
    rw [allChunkCoords, mem_cartProd, chunkIndexRanges,
      List.forall₂_map_right_iff]
    constructor
    · exact fun hf => hf.imp (fun x p hx => by
        simpa [numChunks, Nat.ceilDiv_eq_add_pred_div] using hx)
    · exact fun hf => hf.imp (fun x p hx => by
        simpa [numChunks, Nat.ceilDiv_eq_add_pred_div] using hx)

/-- Witness for C3 at shape `[5, 3]`, chunks `[2, 2]`:
`ceil(5/2) * ceil(3/2) = 3 * 2 = 6` coordinates. -/
theorem c3_enumeration_count_witness :
    ([5, 3] : List Nat).length = ([2, 2] : List Nat).length ∧
    (∀ c ∈ ([2, 2] : List Nat), 0 < c) ∧
    ((allChunkCoords [5, 3] [2, 2]).length =
      (([5, 3].zip [2, 2]).map (fun p => p.1 ⌈/⌉ p.2)).prod ∧
    ∀ t, t ∈ allChunkCoords [5, 3] [2, 2] ↔
      List.Forall₂ (fun x (p : Nat × Nat) => x < p.1 ⌈/⌉ p.2) t
        ([5, 3].zip [2, 2])) :=
  ⟨by decide, by decide,
    c3_enumeration_count [5, 3] [2, 2] (by decide) (by decide)⟩

/-- C5: in the chunked path, every selected chunk coordinate is attempted
(the attempt count equals the selection length even when reads fail), and
the error list is exactly the per-chunk classified failures in selection
order — one chunk's failure never aborts the remaining attempts, and the
function returns an `ElementResult` rather than propagating. -/
theorem c5_chunk_failures_isolated
    (rand : List (List Nat) → Nat → List (List Nat)) (a : ZarrArrayModel)
    (sc : Bool) (mx : Option Nat) (p : Option String) (s c : List Nat)
    (hm : a.meta = .ok (s, some c)) (hz : zeroChunkSize s c = false) :
    (check_zarr_array rand a sc mx p).chunks_checked =
      (selectChunks rand sc mx (allChunkCoords s c)).length ∧
    (check_zarr_array rand a sc mx p).errors =
      (selectChunks rand sc mx (allChunkCoords s c)).filterMap
        (chunkErrOf a.read s c p) := by
  rw [check_zarr_array_chunked rand a sc mx p s c hm hz]
  exact ⟨rfl, rfl⟩

/-- A store of shape `[4]`, chunks `[2]`, whose second chunk (slices
`[(2, 4)]`) fails to read while the first succeeds. -/
def oneBadChunkArray : ZarrArrayModel :=
  { meta := .ok ([4], some [2])
    read := fun sl => if sl = [(2, 4)] then .error ⟨"OSError", "bad chunk"⟩
      else .ok () }

/-- Witness for C5: with one of two chunks failing, both chunks are still
attempted and exactly the failing one is recorded. -/
theorem c5_chunk_failures_isolated_witness :
    oneBadChunkArray.meta = .ok ([4], some [2]) ∧
    zeroChunkSize [4] [2] = false ∧
    ((check_zarr_array takeRand oneBadChunkArray true none
        none).chunks_checked =
      (selectChunks takeRand true none (allChunkCoords [4] [2])).length ∧
    (check_zarr_array takeRand oneBadChunkArray true none none).errors =
      (selectChunks takeRand true none (allChunkCoords [4] [2])).filterMap
        (chunkErrOf oneBadChunkArray.read [4] [2] none)) :=
  ⟨rfl, by decide,
    c5_chunk_failures_isolated takeRand oneBadChunkArray true none none
      [4] [2] rfl (by decide)⟩

/-- An images-element whose data reaches the direct array-access fallback
(`checker.py:346-375`) and whose sample read fails with a message
containing "decompression" (but not "blosc"). -/
def decompPlainElement : ElementModel :=
  { data := .ok (some (.plain (some [5, 5])
      (.error ⟨"RuntimeError", "Decompression failed"⟩)))
    probe := .ok () }

/-- C4, counterexample: at the direct array-access fallback
(`checker.py:362-375`, cited by the claim) only `"blosc"` is matched, so a
failure whose message contains "decompression" keeps its generic exception
type instead of the decompression-specific kind. -/
theorem c4_counterexample :
    containsSub "decompression" "Decompression failed" = true ∧
    (check_spatialdata_element takeRand decompPlainElement "images"
      "img").errors =
      [{ chunk_index := .coords []
         error_type := "RuntimeError"
         error_message := "Decompression failed"
         array_path := some "img" }] ∧
    ("RuntimeError" : String) ≠ "BloscDecompressionError" := by
  decide

/-- C4 (amended): failures recorded in the chunked-read loop of
`check_zarr_array` and at the multiscale probe are classified by matching
both `"blosc"` and `"decompression"` case-insensitively (decompression
kind if matched, original exception type otherwise); the direct
array-access fallback of `check_spatialdata_element` matches only
`"blosc"`. -/
theorem c4_error_classification :
    (∀ ty m : String,
      ((containsSub "blosc" m || containsSub "decompression" m) = true →
        classifyBoth ty m = "BloscDecompressionError") ∧
      ((containsSub "blosc" m || containsSub "decompression" m) = false →
        classifyBoth ty m = ty) ∧
      (containsSub "blosc" m = true →
        classifyBloscOnly ty m = "BloscDecompressionError") ∧
      (containsSub "blosc" m = false → classifyBloscOnly ty m = ty)) ∧
    (∀ (rand : List (List Nat) → Nat → List (List Nat))
        (a : ZarrArrayModel) (sc : Bool) (mx : Option Nat)
        (p : Option String) (s c : List Nat),
      a.meta = .ok (s, some c) → zeroChunkSize s c = false →
      ∀ er ∈ (check_zarr_array rand a sc mx p).errors,
        ∃ (co : List Nat) (e : PyErr),
          a.read (chunkSlices co s c) = .error e ∧
          er.error_message = e.msg ∧
          er.error_type = classifyBoth e.ty e.msg) ∧
    (∀ (rand : List (List Nat) → Nat → List (List Nat))
        (name sn : String) (i : Nat) (e : PyErr),
      checkScaleLevel rand name i (.named sn (.probeOnly (.error e))) =
        (1, [{ chunk_index := .scale sn
               error_type := classifyBoth e.ty e.msg
               error_message := e.msg
               array_path := some (name ++ "/" ++ sn) }])) ∧
    (∀ (rand : List (List Nat) → Nat → List (List Nat))
        (el : ElementModel) (name : String) (s : List Nat) (e : PyErr),
      el.data = .ok (some (.plain (some s) (.error e))) →
      (check_spatialdata_element rand el "images" name).errors =
        [{ chunk_index := .coords []
           error_type := classifyBloscOnly e.ty e.msg
           error_message := e.msg
           array_path := some name }]) := by
  refine ⟨?_, ?_, ?_, ?_⟩
  · intro ty m
    refine ⟨fun h => ?_, fun h => ?_, fun h => ?_, fun h => ?_⟩ <;>
      simp [classifyBoth, classifyBloscOnly, h]
  · intro rand a sc mx p s c hm hz er her
    rw [check_zarr_array_chunked rand a sc mx p s c hm hz] at her
    simp only [mkArrayResult, List.mem_filterMap] at her
    obtain ⟨co, _, hg⟩ := her
    rw [chunkErrOf] at hg
    cases hr : a.read (chunkSlices co s c) with
    | ok u => rw [hr] at hg; exact absurd hg (by simp)
    | error e =>
        rw [hr] at hg
        simp only [Option.some.injEq] at hg
        exact ⟨co, e, hr, by rw [← hg]; exact rfl, by rw [← hg]; exact rfl⟩
  · intro rand name sn i e
    simp [checkScaleLevel, scaleItem, scaleName]
  · intro rand el name s e hd
    rw [check_spatialdata_element]
    simp only [isImageLike, hd]
    simp [checkImageData, mkElementResult]

/-- Witness for C4 (amended): the four site behaviours evaluated at
concrete messages and a concrete element. -/
theorem c4_error_classification_witness :
    (containsSub "blosc" "Blosc decode failure" ||
      containsSub "decompression" "Blosc decode failure") = true ∧
    classifyBoth "RuntimeError" "Blosc decode failure" =
      "BloscDecompressionError" ∧
    decompPlainElement.data =
      .ok (some (.plain (some [5, 5])
        (.error ⟨"RuntimeError", "Decompression failed"⟩))) ∧
    (check_spatialdata_element takeRand decompPlainElement "images"
      "img").errors =
      [{ chunk_index := .coords []
         error_type :=
           classifyBloscOnly "RuntimeError" "Decompression failed"
         error_message := "Decompression failed"
         array_path := some "img" }] :=
  ⟨by decide,
   (c4_error_classification.1 "RuntimeError" "Blosc decode failure").1
     (by decide),
   rfl,
   c4_error_classification.2.2.2 takeRand decompPlainElement "img" [5, 5]
     ⟨"RuntimeError", "Decompression failed"⟩ rfl⟩

/-- C6: when loading the container from a path fails, `check_spatialdata`
short-circuits with an invalid result carrying exactly one structural
error describing the load failure and no element results. -/
theorem c6_load_failure_short_circuits
    (rand : List (List Nat) → Nat → List (List Nat))
    (load : Except PyErr ContainerModel) (path : String)
    (tys : Option (List String)) (e : PyErr) (h : load = .error e) :
    check_spatialdata rand load path tys =
      { path := some path
        is_valid := false
        elements := []
        errors :=
          ["Failed to load SpatialData object: " ++ e.ty ++ ": " ++
            e.msg] } ∧
    (check_spatialdata rand load path tys).errors.length = 1 ∧
    (check_spatialdata rand load path tys).is_valid = false ∧
    (check_spatialdata rand load path tys).elements = [] := by
  subst h
  exact ⟨rfl, rfl, rfl, rfl⟩

/-- Witness for C6 at a concrete load failure. -/
theorem c6_load_failure_short_circuits_witness :
    (Except.error ⟨"FileNotFoundError", "no such store"⟩ :
        Except PyErr ContainerModel) =
      .error ⟨"FileNotFoundError", "no such store"⟩ ∧
    check_spatialdata takeRand
        (.error ⟨"FileNotFoundError", "no such store"⟩) "data.zarr" none =
      { path := some "data.zarr"
        is_valid := false
        elements := []
        errors :=
          ["Failed to load SpatialData object: " ++ "FileNotFoundError" ++
            ": " ++ "no such store"] } :=
  ⟨rfl,
   (c6_load_failure_short_circuits takeRand
     (.error ⟨"FileNotFoundError", "no such store"⟩) "data.zarr" none
     ⟨"FileNotFoundError", "no such store"⟩ rfl).1⟩

/-- C7: the harness produces exactly one `ValidationResult` per submitted
task, in submission order; each outcome carries its own task's identity
(dataset name, version) and depends only on that task's behaviour; a
timeout, a crash, or unparsable output becomes a failed outcome for that
task alone, with the corresponding error kind. -/
theorem c7_one_outcome_per_task (beh : DatasetTask → RunOutcome)
    (tasks : List DatasetTask) :
    (runValidation beh tasks).length = tasks.length ∧
    (runValidation beh tasks).map
        (fun r => (r.dataset_name, r.spatialdata_version)) =
      tasks.map (fun t => (t.name, t.version)) ∧
    List.Forall₂
      (fun t r =>
        r = validate_with_version beh t ∧
        (beh t = .timeout →
          r.success = false ∧ r.error_type = some "TimeoutError") ∧
        (∀ e, beh t = .exc e →
          r.success = false ∧ r.error_type = some e.ty) ∧
        (∀ stdout stderr, beh t = .completed none stdout stderr →
          r.success = false ∧ r.error_type = some "ParseError"))
      tasks (runValidation beh tasks) := by
  refine ⟨by simp [runValidation], ?_, ?_⟩
  · rw [runValidation, List.map_map]
    apply List.map_congr_left
    intro t _
    cases hb : beh t with
    | completed parsed o e =>
        cases parsed <;> simp [validate_with_version, hb]
    | timeout => simp [validate_with_version, hb]
    | exc e => simp [validate_with_version, hb]
  · rw [runValidation, List.forall₂_map_right_iff]
    rw [List.forall₂_same]
    intro t _
    refine ⟨rfl, ?_, ?_, ?_⟩
    · intro hb; simp [validate_with_version, hb]
    · intro e hb; simp [validate_with_version, hb]
    · intro stdout stderr hb; simp [validate_with_version, hb]

/-- Witness for C7 at a concrete task list mixing a success, a timeout,
and a crash. -/
theorem c7_one_outcome_per_task_witness :
    (runValidation
        (fun t => if t.version = "0.5.0" then .timeout
          else .exc ⟨"OSError", "crash"⟩)
        [⟨"MERFISH (Mouse brain)", "merfish.zarr", "0.5.0"⟩,
         ⟨"MERFISH (Mouse brain)", "merfish.zarr", "0.6.1"⟩]).length =
      ([⟨"MERFISH (Mouse brain)", "merfish.zarr", "0.5.0"⟩,
        ⟨"MERFISH (Mouse brain)", "merfish.zarr", "0.6.1"⟩] :
        List DatasetTask).length :=
  (c7_one_outcome_per_task
    (fun t => if t.version = "0.5.0" then .timeout
      else .exc ⟨"OSError", "crash"⟩)
    [⟨"MERFISH (Mouse brain)", "merfish.zarr", "0.5.0"⟩,
     ⟨"MERFISH (Mouse brain)", "merfish.zarr", "0.6.1"⟩]).1

/-- An images-element with no `data` attribute. -/
def noDataElement : ElementModel :=
  { data := .ok none
    probe := .ok () }

/-- C10: an images/labels element whose structure cannot be introspected —
no `data` attribute, or array-like data with no `shape` attribute — yields
a warning, no errors, zero chunks checked, and `is_valid = true`. -/
theorem c10_warning_only (rand : List (List Nat) → Nat → List (List Nat))
    (el : ElementModel) (ty name : String)
    (himg : isImageLike ty = true)
    (h : el.data = .ok none ∨
      ∃ res, el.data = .ok (some (.plain none res))) :
    (check_spatialdata_element rand el ty name).warning.isSome = true ∧
    (check_spatialdata_element rand el ty name).errors = [] ∧
    (check_spatialdata_element rand el ty name).chunks_checked = 0 ∧
    (check_spatialdata_element rand el ty name).is_valid = true := by
  rw [check_spatialdata_element]
  simp only [himg, if_true]
  rcases h with hd | ⟨res, hd⟩
  · rw [hd]
    simp [mkElementResult]
  · rw [hd]
    simp [checkImageData, mkElementResult]

/-- Witness for C10 at a concrete element lacking `data`. -/
theorem c10_warning_only_witness :
    isImageLike "images" = true ∧
    (noDataElement.data = .ok none ∨
      ∃ res, noDataElement.data = .ok (some (.plain none res))) ∧
    ((check_spatialdata_element takeRand noDataElement "images"
        "img").warning.isSome = true ∧
      (check_spatialdata_element takeRand noDataElement "images"
        "img").errors = [] ∧
      (check_spatialdata_element takeRand noDataElement "images"
        "img").chunks_checked = 0 ∧
      (check_spatialdata_element takeRand noDataElement "images"
        "img").is_valid = true) :=
  ⟨by decide, Or.inl rfl,
    c10_warning_only takeRand noDataElement "images" "img" (by decide)
      (Or.inl rfl)⟩

/-- Formalisation of the claim's wording for the unchunked probe: "reads
the first `min(10, dim)` elements along each of the first two dimensions"
— the first two dimensions restricted to `min 10`, the remaining
dimensions read in full. Stated from the spec for comparison with
`unchunkedProbeSlices`, which is translated from the source. -/
def claimedProbeSlices (shape : List Nat) : List (Nat × Nat) :=
  (shape.take 2).map (fun s => (0, min 10 s)) ++
    (shape.drop 2).map (fun s => (0, s))

/-- C8, counterexample: for a 3-D unchunked array the source's probe
(`checker.py:118`) restricts every dimension to `min(10, s)`, not just the
first two. -/
theorem c8_counterexample :
    unchunkedProbeSlices [20, 20, 20] = [(0, 10), (0, 10), (0, 10)] ∧
    claimedProbeSlices [20, 20, 20] = [(0, 10), (0, 10), (0, 20)] ∧
    unchunkedProbeSlices [20, 20, 20] ≠ claimedProbeSlices [20, 20, 20] := by
  decide

/-- C8 (amended): for an array with no chunk grid the scanner performs a
single synthetic probe reading the first `min(10, dim)` elements along
every dimension, and this counts as exactly one chunk checked whether the
read succeeds or fails (success leaves the error list empty; failure
records exactly one unclassified error at coordinate `(0,)*ndim`). -/
theorem c8_unchunked_probe (rand : List (List Nat) → Nat → List (List Nat))
    (a : ZarrArrayModel) (sc : Bool) (mx : Option Nat) (p : Option String)
    (s : List Nat) (hm : a.meta = .ok (s, none)) :
    (check_zarr_array rand a sc mx p).chunks_checked = 1 ∧
    unchunkedProbeSlices s = s.map (fun d => (0, min 10 d)) ∧
    (∀ u, a.read (unchunkedProbeSlices s) = .ok u →
      (check_zarr_array rand a sc mx p).errors = []) ∧
    (∀ e, a.read (unchunkedProbeSlices s) = .error e →
      (check_zarr_array rand a sc mx p).errors =
        [{ chunk_index := .coords (List.replicate s.length 0)
           error_type := e.ty
           error_message := e.msg
           array_path := p }]) := by
  rw [check_zarr_array, hm]
  refine ⟨?_, rfl, ?_, ?_⟩
  · cases hr : a.read (unchunkedProbeSlices s) <;> simp [hr, mkArrayResult]
  · intro u hr; simp [hr, mkArrayResult]
  · intro e hr; simp [hr, mkArrayResult]

/-- A healthy unchunked 3-D store. -/
def unchunked3dArray : ZarrArrayModel :=
  { meta := .ok ([20, 20, 20], none)
    read := fun _ => .ok () }

/-- Witness for C8 (amended) at a concrete unchunked 3-D store. -/
theorem c8_unchunked_probe_witness :
    unchunked3dArray.meta = .ok ([20, 20, 20], none) ∧
    (check_zarr_array takeRand unchunked3dArray true none
        none).chunks_checked = 1 ∧
    unchunkedProbeSlices [20, 20, 20] =
      [20, 20, 20].map (fun d => (0, min 10 d)) :=
  ⟨rfl,
   (c8_unchunked_probe takeRand unchunked3dArray true none none
     [20, 20, 20] rfl).1,
   (c8_unchunked_probe takeRand unchunked3dArray true none none
     [20, 20, 20] rfl).2.1⟩

/-- C9, counterexample: with 11 coordinates and a budget of 11 given via
`max_chunks_to_check` (so `n ≤ budget`), sampling mode still replaces the
full set by 10 sampled coordinates (`len > 10` triggers at
`checker.py:145`), so the selection is not the full set. -/
theorem c9_counterexample :
    (allChunkCoords [11] [1]).length = 11 ∧
    selectChunks takeRand true (some 11) (allChunkCoords [11] [1]) =
      [[0], [10], [1], [2], [3], [4], [5], [6], [7], [8]] ∧
    selectChunks takeRand true (some 11) (allChunkCoords [11] [1]) ≠
      allChunkCoords [11] [1] := by
  decide

/-- C9 (amended): when the coordinate set has at most 10 members (the
sampling threshold) and any `max_chunks_to_check` limit is at least the
set size, selection returns the full coordinate set unchanged — it is the
identity, hence order-preserving and idempotent. -/
theorem c9_small_set_identity
    (rand : List (List Nat) → Nat → List (List Nat)) (sc : Bool)
    (mx : Option Nat) (all : List (List Nat)) (hn : all.length ≤ 10)
    (hmx : ∀ m, mx = some m → all.length ≤ m) :
    selectChunks rand sc mx all = all ∧
    selectChunks rand sc mx (selectChunks rand sc mx all) =
      selectChunks rand sc mx all := by
  have hid : selectChunks rand sc mx all = all := by
    have hlt : ¬(10 < all.length) := by omega
    cases mx with
    | none => simp [selectChunks, hlt]
    | some m =>
        simp [selectChunks, hlt, List.take_of_length_le (hmx m rfl)]
  exact ⟨hid, by rw [hid, hid]⟩

/-- Witness for C9 (amended): 3 coordinates, limit 5. -/
theorem c9_small_set_identity_witness :
    (allChunkCoords [3] [1]).length ≤ 10 ∧
    (selectChunks takeRand true (some 5) (allChunkCoords [3] [1]) =
        allChunkCoords [3] [1] ∧
      selectChunks takeRand true (some 5)
          (selectChunks takeRand true (some 5) (allChunkCoords [3] [1])) =
        selectChunks takeRand true (some 5) (allChunkCoords [3] [1])) :=
  ⟨by decide,
   c9_small_set_identity takeRand true (some 5) (allChunkCoords [3] [1])
     (by decide) (fun m hm => by cases hm; decide)⟩

theorem headI_range_le {n x : Nat} (hx : x ∈ List.range n) :
    (List.range n).headI ≤ x := by
  have hn : 0 < n := Nat.pos_of_ne_zero (by
    intro h; subst h; simp at hx)
  match n, hn with
  | n + 1, _ =>
      rw [List.range_succ_eq_map]
      simp

theorem getLastI_range (n : Nat) : (List.range n).getLastI = n - 1 := by
  cases n with
  | zero => simp [List.getLastI]
  | succ m =>
      rw [List.range_succ, List.getLastI_eq_getLast?, List.getLast?_concat]
      simp

theorem allChunkCoords_nodup (s c : List Nat) :
    (allChunkCoords s c).Nodup := by
  apply cartProd_nodup
  intro l hl
  rw [chunkIndexRanges] at hl
  simp only [List.mem_map] at hl
  obtain ⟨p, _, rfl⟩ := hl
  exact List.nodup_range _

theorem allChunkCoords_ranges_ne_nil {s c : List Nat}
    (h : 0 < (allChunkCoords s c).length) :
    ∀ l ∈ chunkIndexRanges s c, l ≠ [] := by
  intro l hl hnil
  rw [allChunkCoords, cartProd_length] at h
  subst hnil
  have h0 : (0 : Nat) ∈ (chunkIndexRanges s c).map List.length := by
    simpa using List.mem_map_of_mem List.length hl
  rw [List.prod_eq_zero h0] at h
  omega

/-- The enumeration order of `allChunkCoords` puts the lexicographically
smallest coordinate first. -/
theorem allChunkCoords_headI_lex_min {s c : List Nat}
    (h : 0 < (allChunkCoords s c).length) :
    ∀ t ∈ allChunkCoords s c,
      t = (allChunkCoords s c).headI ∨
        List.Lex (· < ·) (allChunkCoords s c).headI t := by
  intro t ht
  have hne := allChunkCoords_ranges_ne_nil h
  have hh : (allChunkCoords s c).headI =
      (chunkIndexRanges s c).map List.headI := cartProd_headI hne
  rw [allChunkCoords, mem_cartProd] at ht
  have hle : List.Forall₂ (· ≤ ·) ((allChunkCoords s c).headI) t := by
    simp only [hh, chunkIndexRanges, List.map_map, Function.comp_def,
      List.forall₂_map_left_iff]
    rw [chunkIndexRanges, List.forall₂_map_right_iff] at ht
    exact ht.flip.imp (fun p x hm => headI_range_le hm)
  rcases lex_of_forall₂_le hle with heq | hlex
  · exact Or.inl heq.symm
  · exact Or.inr hlex

/-- The enumeration order of `allChunkCoords` puts the lexicographically
largest coordinate last. -/
theorem allChunkCoords_getLastI_lex_max {s c : List Nat}
    (h : 0 < (allChunkCoords s c).length) :
    ∀ t ∈ allChunkCoords s c,
      t = (allChunkCoords s c).getLastI ∨
        List.Lex (· < ·) t (allChunkCoords s c).getLastI := by
  intro t ht
  have hne := allChunkCoords_ranges_ne_nil h
  have hh : (allChunkCoords s c).getLastI =
      (chunkIndexRanges s c).map List.getLastI := cartProd_getLastI hne
  rw [allChunkCoords, mem_cartProd] at ht
  have hle : List.Forall₂ (· ≤ ·) t ((allChunkCoords s c).getLastI) := by
    simp only [hh, chunkIndexRanges, List.map_map, Function.comp_def,
      List.forall₂_map_right_iff]
    rw [chunkIndexRanges, List.forall₂_map_right_iff] at ht
    refine ht.imp (fun x p hm => ?_)
    rw [getLastI_range]
    have hx := List.mem_range.mp hm
    omega
  exact lex_of_forall₂_le hle

/-- The effective budget: `max_chunks_to_check` when given, otherwise the
intrinsic sample size 10 (first + last + 8 interior samples). -/
def budgetOf : Option Nat → Nat
  | none => 10
  | some m => m

theorem selectChunks_sampled_eq
    (rand : List (List Nat) → Nat → List (List Nat)) (mx : Option Nat)
    (all : List (List Nat)) (h10 : 10 < all.length) :
    selectChunks rand true mx all =
      (match mx with
       | none =>
           all.headI :: all.getLastI :: rand (all.tail.dropLast) 8
       | some m =>
           (all.headI :: all.getLastI ::
             rand (all.tail.dropLast) 8).take m) := by
  have h2 : 2 < all.length := by omega
  have hmin : min 8 (all.length - 2) = 8 := by omega
  cases mx with
  | none => simp [selectChunks, h10, h2, hmin]
  | some m => simp [selectChunks, h10, h2, hmin]

theorem selectChunks_sampled
    (rand : List (List Nat) → Nat → List (List Nat))
    (hr : SampleOK rand) (mx : Option Nat) (all : List (List Nat))
    (hnd : all.Nodup) (h10 : 10 < all.length)
    (hb2 : 2 ≤ budgetOf mx) (hb10 : budgetOf mx ≤ 10) :
    (selectChunks rand true mx all).length = budgetOf mx ∧
    (selectChunks rand true mx all).Nodup ∧
    (∀ x ∈ selectChunks rand true mx all, x ∈ all) ∧
    all.headI ∈ selectChunks rand true mx all ∧
    all.getLastI ∈ selectChunks rand true mx all := by
  have hne : all ≠ [] := List.ne_nil_of_length_pos (by omega)
  have h2len : 2 ≤ all.length := by omega
  have hteq : all.drop 1 = all.tail := List.drop_one all
  have hintlen : (all.tail.dropLast).length = all.length - 2 := by
    rw [← hteq]
    simp only [List.length_dropLast, List.length_drop]
    omega
  have hk : 8 ≤ (all.tail.dropLast).length := by omega
  obtain ⟨hrlen, hrnd, hrsub⟩ := hr (all.tail.dropLast) 8 hk
  have hintnd : (all.tail.dropLast).Nodup := by
    rw [← hteq]
    exact (List.dropLast_sublist _).nodup ((List.drop_sublist _ _).nodup hnd)
  have hintsub : ∀ x ∈ all.tail.dropLast, x ∈ all := by
    rw [← hteq]
    exact fun x hx => List.drop_subset _ _ (List.dropLast_subset _ hx)
  have hheadmem : all.headI ∈ all := headI_mem hne
  have hlastmem : all.getLastI ∈ all := getLastI_mem hne
  have hhead_ne : all.headI ∉ rand (all.tail.dropLast) 8 := by
    intro hmem
    apply headI_not_mem_interior hnd hne
    rw [hteq]
    exact hrsub _ hmem
  have hlast_ne : all.getLastI ∉ rand (all.tail.dropLast) 8 := by
    intro hmem
    apply getLastI_not_mem_interior hnd h2len
    rw [hteq]
    exact hrsub _ hmem
  have hhl : all.headI ≠ all.getLastI := headI_ne_getLastI h2len hnd
  have hrnodup : (rand (all.tail.dropLast) 8).Nodup := hrnd hintnd
  rw [selectChunks_sampled_eq rand mx all h10]
  cases mx with
  | none =>
      refine ⟨?_, ?_, ?_, by simp, by simp⟩
      · simp [budgetOf, hrlen]
      · exact List.nodup_cons.mpr ⟨by simp [hhl, hhead_ne],
          List.nodup_cons.mpr ⟨hlast_ne, hrnodup⟩⟩
      · intro x hx
        rcases List.mem_cons.mp hx with rfl | hx
        · exact hheadmem
        rcases List.mem_cons.mp hx with rfl | hx
        · exact hlastmem
        · exact hintsub _ (hrsub _ hx)
  | some m =>
      simp only [budgetOf] at hb2 hb10 ⊢
      obtain ⟨k, hkm⟩ := Nat.le.dest hb2
      have hk8 : k ≤ 8 := by omega
      subst hkm
      rw [show 2 + k = k + 2 by omega]
      simp only [List.take_succ_cons]
      have htknd : (List.take k (rand (all.tail.dropLast) 8)).Nodup :=
        (List.take_sublist _ _).nodup hrnodup
      have htksub : ∀ x ∈ List.take k (rand (all.tail.dropLast) 8),
          x ∈ rand (all.tail.dropLast) 8 :=
        fun x hx => List.mem_of_mem_take hx
      refine ⟨?_, ?_, ?_, by simp, by simp⟩
      · simp only [List.length_cons, List.length_take, hrlen]
        omega
      · refine List.nodup_cons.mpr ⟨?_,
          List.nodup_cons.mpr ⟨fun hmem => hlast_ne (htksub _ hmem),
            htknd⟩⟩
        simp only [List.mem_cons]
        rintro (heq | hmem)
        · exact hhl heq
        · exact hhead_ne (htksub _ hmem)
      · intro x hx
        rcases List.mem_cons.mp hx with rfl | hx
        · exact hheadmem
        rcases List.mem_cons.mp hx with rfl | hx
        · exact hlastmem
        · exact hintsub _ (hrsub _ (htksub _ hx))

/-- C2, counterexample: in sampling mode with 5 coordinates and budget 2
given via `max_chunks_to_check` (so `n > budget ≥ 2`), the sampling branch
does not run (it requires more than 10 coordinates, `checker.py:145`), and
the truncation `[:2]` keeps the first two coordinates — the
lexicographically-last coordinate `(4,)` is not selected. -/
theorem c2_counterexample :
    allChunkCoords [5] [1] = [[0], [1], [2], [3], [4]] ∧
    selectChunks takeRand true (some 2) (allChunkCoords [5] [1]) =
      [[0], [1]] ∧
    [4] ∉ selectChunks takeRand true (some 2) (allChunkCoords [5] [1]) := by
  decide

/-- C2 (amended): when the coordinate set has more than 10 members and the
budget (given as `max_chunks_to_check`, or the intrinsic 10 when absent)
is between 2 and 10, the sampling-mode selection has exactly `budget`
members with no duplicate, is a subset of the full set, and contains the
first and last enumerated coordinates — which are respectively the
lexicographic minimum and maximum of the full coordinate set. -/
theorem c2_sampling_properties
    (rand : List (List Nat) → Nat → List (List Nat)) (hr : SampleOK rand)
    (s c : List Nat) (mx : Option Nat)
    (h10 : 10 < (allChunkCoords s c).length)
    (hb2 : 2 ≤ budgetOf mx) (hb10 : budgetOf mx ≤ 10) :
    (selectChunks rand true mx (allChunkCoords s c)).length =
      budgetOf mx ∧
    (selectChunks rand true mx (allChunkCoords s c)).Nodup ∧
    (∀ x ∈ selectChunks rand true mx (allChunkCoords s c),
      x ∈ allChunkCoords s c) ∧
    (allChunkCoords s c).headI ∈
      selectChunks rand true mx (allChunkCoords s c) ∧
    (allChunkCoords s c).getLastI ∈
      selectChunks rand true mx (allChunkCoords s c) ∧
    (∀ t ∈ allChunkCoords s c,
      t = (allChunkCoords s c).headI ∨
        List.Lex (· < ·) (allChunkCoords s c).headI t) ∧
    (∀ t ∈ allChunkCoords s c,
      t = (allChunkCoords s c).getLastI ∨
        List.Lex (· < ·) t (allChunkCoords s c).getLastI) := by
  obtain ⟨h1, h2, h3, h4, h5⟩ := selectChunks_sampled rand hr mx
    (allChunkCoords s c) (allChunkCoords_nodup s c) h10 hb2 hb10
  exact ⟨h1, h2, h3, h4, h5,
    allChunkCoords_headI_lex_min (by omega),
    allChunkCoords_getLastI_lex_max (by omega)⟩

/-- Witness for C2 (amended) at 12 coordinates with the intrinsic budget
of 10. -/
theorem c2_sampling_properties_witness :
    SampleOK takeRand ∧
    10 < (allChunkCoords [12] [1]).length ∧
    2 ≤ budgetOf none ∧ budgetOf none ≤ 10 ∧
    (selectChunks takeRand true none (allChunkCoords [12] [1])).length =
      budgetOf none ∧
    (selectChunks takeRand true none (allChunkCoords [12] [1])).Nodup ∧
    (allChunkCoords [12] [1]).headI ∈
      selectChunks takeRand true none (allChunkCoords [12] [1]) ∧
    (allChunkCoords [12] [1]).getLastI ∈
      selectChunks takeRand true none (allChunkCoords [12] [1]) :=
  ⟨takeRand_sampleOK, by decide, by decide, by decide,
   (c2_sampling_properties takeRand takeRand_sampleOK [12] [1] none
     (by decide) (by decide) (by decide)).1,
   (c2_sampling_properties takeRand takeRand_sampleOK [12] [1] none
     (by decide) (by decide) (by decide)).2.1,
   (c2_sampling_properties takeRand takeRand_sampleOK [12] [1] none
     (by decide) (by decide) (by decide)).2.2.2.1,
   (c2_sampling_properties takeRand takeRand_sampleOK [12] [1] none
     (by decide) (by decide) (by decide)).2.2.2.2.1⟩
